import Mathlib

/-!
Shallow embedding of `src/main.py` (the `ComprehensiveOptionsAnalyzer` options
analysis tool) and proofs relating the code to its natural-language
specification.

The core of the program (lines 17-49 of `src/main.py`) is embedded as follows:
* pandas price/return series become `List ℝ`;
* `hist['Close'].pct_change().dropna()` becomes `dailyReturns`;
* `Series.std()` (pandas default `ddof=1`, sample standard deviation) becomes
  `seriesStd`; `Series.mean()`, `Series.max()`, `Series.min()` become
  `seriesMean`, `seriesMax`, `seriesMin`;
* `scipy.stats.norm.cdf` becomes `normCdf`, the cumulative distribution
  function of the standard Gaussian measure;
* Python exceptions are modelled by `Except PyError`: the source has no
  `try`/`except` and no custom exception classes, so the only failure the
  embedded code can produce on its own is the `IndexError` that
  `hist['Close'].iloc[-1]` raises on an empty series, and an exception raised
  inside the market-data collaborator (`yf.Ticker(...).history(...)`)
  propagates unchanged.

Real-number caveats, noted where they matter: Lean's total real division
returns 0 where IEEE arithmetic would produce `inf`/`NaN` (e.g. `0.0/0.0`).
The source never raises in those situations either (numpy emits a warning and
yields `NaN`), so theorems about *whether* an error is raised are faithful;
theorems are not used to assert the IEEE value of such junk quantities except
where explicitly commented.
-/

namespace OptionsAnalyzer

open MeasureTheory ProbabilityTheory

/-- `scipy.stats.norm.cdf`: the standard normal cumulative distribution
function, embedded as the CDF of the Gaussian measure with mean 0 and
variance 1. -/
noncomputable def normCdf (x : ℝ) : ℝ :=
  ProbabilityTheory.cdf (ProbabilityTheory.gaussianReal 0 1) x

/-- `hist['Close'].pct_change().dropna()` (src/main.py line 22): the list of
daily fractional returns `price[i]/price[i-1] - 1`.  `pct_change` pairs each
element with its predecessor (the first element, which has no predecessor,
produces the `NaN` that `dropna` removes). -/
noncomputable def dailyReturns (prices : List ℝ) : List ℝ :=
  List.zipWith (fun prev cur => cur / prev - 1) prices prices.tail

/-- `Series.mean()`: sum divided by length.  pandas yields `NaN` on an empty
series; Lean's total division yields the junk value 0 there. -/
noncomputable def seriesMean (xs : List ℝ) : ℝ :=
  xs.sum / (xs.length : ℝ)

/-- `Series.std()` with the pandas default `ddof=1`: the sample standard
deviation `sqrt (Σ (x - mean)² / (n - 1))`.  pandas yields `NaN` for
`n ≤ 1`; Lean's total division yields the junk value 0 there. -/
noncomputable def seriesStd (xs : List ℝ) : ℝ :=
  Real.sqrt ((xs.map (fun x => (x - seriesMean xs) ^ 2)).sum
    / ((xs.length : ℝ) - 1))

/-- `Series.max()`: the maximum element.  pandas yields `NaN` on an empty
series; the embedding uses the junk value 0 there. -/
noncomputable def seriesMax : List ℝ → ℝ
  | [] => 0
  | x :: xs => xs.foldl max x

/-- `Series.min()`: the minimum element.  pandas yields `NaN` on an empty
series; the embedding uses the junk value 0 there. -/
noncomputable def seriesMin : List ℝ → ℝ
  | [] => 0
  | x :: xs => xs.foldl min x

/-- src/main.py line 23: `volatility = daily_returns.std() * np.sqrt(252)`. -/
noncomputable def volatility (prices : List ℝ) : ℝ :=
  seriesStd (dailyReturns prices) * Real.sqrt 252

/-- src/main.py line 24: `avg_daily_move = abs(daily_returns).mean()`. -/
noncomputable def avgDailyMove (prices : List ℝ) : ℝ :=
  seriesMean ((dailyReturns prices).map (fun r => |r|))

/-- src/main.py line 25: `max_daily_gain = daily_returns.max()`. -/
noncomputable def maxDailyGain (prices : List ℝ) : ℝ :=
  seriesMax (dailyReturns prices)

/-- src/main.py line 26: `max_daily_loss = daily_returns.min()`. -/
noncomputable def maxDailyLoss (prices : List ℝ) : ℝ :=
  seriesMin (dailyReturns prices)

/-- src/main.py lines 29-34: the probability-of-profit computation.
`time_to_expiry = days_to_expiry / 365.0`, `std_dev = volatility *
np.sqrt(time_to_expiry)`, then the `norm.cdf` formula, branching on
`option_type == 'call'` (any other string takes the `else` branch). -/
noncomputable def probProfit (current_price strike_price : ℝ) (days_to_expiry : ℕ)
    (vol : ℝ) (option_type : String) : ℝ :=
  let time_to_expiry : ℝ := (days_to_expiry : ℝ) / 365
  let std_dev : ℝ := vol * Real.sqrt time_to_expiry
  if option_type = "call" then
    1 - normCdf (Real.log (strike_price / current_price) / std_dev)
  else
    normCdf (Real.log (strike_price / current_price) / std_dev)

/-- The Python exceptions relevant to `analyze_option`.  The source defines no
exception classes of its own; `dataUnavailableError`, `insufficientDataError`
and `invalidParameterError` are the taxonomy of spec §7 (they exist in the
error universe but the code never raises them), `indexError` is what pandas
`iloc[-1]` raises on an empty series, and `collaboratorError` stands for an
exception raised inside the market-data client (unknown host, network
failure). -/
inductive PyError where
  | indexError
  | collaboratorError
  | dataUnavailableError
  | insufficientDataError
  | invalidParameterError
  deriving DecidableEq

/-- The analysis record assembled at src/main.py lines 37-49, with the
source's field names. -/
structure Analysis where
  ticker : String
  current_price : ℝ
  strike_price : ℝ
  days_to_expiry : ℕ
  volatility : ℝ
  avg_daily_move : ℝ
  max_daily_gain : ℝ
  max_daily_loss : ℝ
  prob_profit : ℝ
  investment_amount : ℝ
  option_type : String

/-- src/main.py lines 12-54, `analyze_option`, with the fetched close-price
series supplied as an explicit argument (`Except.error e` models the
market-data call itself raising `e`; the source wraps it in no `try`/`except`,
so such an exception propagates unchanged).  `hist.getLast?` models
`hist['Close'].iloc[-1]`, which raises `IndexError` on an empty series.  The
record fields are, in order: ticker, current_price, strike_price,
days_to_expiry, volatility, avg_daily_move, max_daily_gain, max_daily_loss,
prob_profit, investment_amount, option_type. -/
noncomputable def analyzeOption (fetched : Except PyError (List ℝ)) (ticker : String)
    (strike_price : ℝ) (days_to_expiry : ℕ) (option_type : String)
    (investment_amount : ℝ) : Except PyError Analysis :=
  match fetched with
  | .error e => .error e
  | .ok hist =>
    match hist.getLast? with
    | none => .error PyError.indexError
    | some current_price =>
      .ok ⟨ticker, current_price, strike_price, days_to_expiry,
        volatility hist, avgDailyMove hist, maxDailyGain hist, maxDailyLoss hist,
        probProfit current_price strike_price days_to_expiry (volatility hist)
          option_type,
        investment_amount, option_type⟩

/-- Modelled from the spec (§3 ReturnSeries): `return[i] = price[i]/price[i-1]
- 1, for i = 1..n-1 (length = len(PriceSeries) - 1)`, written here with the
return series indexed from 0, so entry `i` is `price[i+1]/price[i] - 1`. -/
noncomputable def specReturnSeries (p : List ℝ) : List ℝ :=
  (List.range (p.length - 1)).map (fun i => p.getD (i + 1) 0 / p.getD i 0 - 1)

/-! ### Facts about the standard normal CDF -/

lemma normCdf_nonneg (x : ℝ) : 0 ≤ normCdf x :=
  ProbabilityTheory.cdf_nonneg _ x

lemma normCdf_le_one (x : ℝ) : normCdf x ≤ 1 :=
  ProbabilityTheory.cdf_le_one _ x

lemma normCdf_mono : Monotone normCdf :=
  fun _ _ h => ProbabilityTheory.monotone_cdf _ h

lemma gaussianReal_std_map_neg :
    (ProbabilityTheory.gaussianReal 0 1).map (fun x : ℝ => -x)
      = ProbabilityTheory.gaussianReal 0 1 := by
  have h := @ProbabilityTheory.gaussianReal_map_const_mul 0 1 (-1)
  have e1 : (fun x : ℝ => (-1) * x) = (fun x : ℝ => -x) := by
    funext x; ring
  have e2 : (⟨(-1 : ℝ) ^ 2, sq_nonneg _⟩ : NNReal) * 1 = 1 := by
    apply NNReal.coe_injective
    push_cast
    norm_num
  rw [e1, e2] at h
  simpa using h

lemma gaussian_singleton_zero (a : ℝ) :
    ProbabilityTheory.gaussianReal 0 1 {a} = 0 :=
  ProbabilityTheory.gaussianReal_absolutelyContinuous 0 one_ne_zero
    (measure_singleton a)

lemma gaussian_Iic_zero_eq_Ici :
    ProbabilityTheory.gaussianReal 0 1 (Set.Iic 0)
      = ProbabilityTheory.gaussianReal 0 1 (Set.Ici 0) := by
  conv_lhs => rw [← gaussianReal_std_map_neg]
  rw [MeasureTheory.Measure.map_apply measurable_neg measurableSet_Iic]
  congr 1
  ext x
  simp

/-- Φ(0) = 1/2: the standard normal distribution is symmetric about 0. -/
lemma normCdf_zero : normCdf 0 = 1 / 2 := by
  set μ := ProbabilityTheory.gaussianReal 0 1 with hμ
  have hIci : μ (Set.Ici 0) = μ (Set.Ioi 0) :=
    (measure_congr (MeasureTheory.Ioi_ae_eq_Ici' (gaussian_singleton_zero 0))).symm
  have hsum : μ (Set.Iic 0) + μ (Set.Ioi 0) = 1 := by
    have h : μ (Set.Iic 0) + μ (Set.Iic (0:ℝ))ᶜ = μ Set.univ :=
      MeasureTheory.measure_add_measure_compl measurableSet_Iic
    rwa [Set.compl_Iic, measure_univ] at h
  have key : μ (Set.Iic 0) + μ (Set.Iic 0) = 1 := by
    rw [gaussian_Iic_zero_eq_Ici, hIci] at hsum ⊢
    exact hsum
  have hne : μ (Set.Iic 0) ≠ ⊤ := measure_ne_top _ _
  have hreal : (μ (Set.Iic 0)).toReal + (μ (Set.Iic 0)).toReal = 1 := by
    rw [← ENNReal.toReal_add hne hne, key, ENNReal.one_toReal]
  have hcdf : normCdf 0 = (μ (Set.Iic 0)).toReal :=
    ProbabilityTheory.cdf_eq_toReal μ 0
  rw [hcdf]
  linarith

/-! ### Facts about `foldl max` / `foldl min` -/

lemma foldl_max_mem (x : ℝ) (xs : List ℝ) : xs.foldl max x ∈ x :: xs := by
  induction xs generalizing x with
  | nil => simp
  | cons a t ih =>
    rw [List.foldl_cons]
    rcases List.mem_cons.mp (ih (max x a)) with h | h
    · rcases max_choice x a with hm | hm
      · rw [h, hm]
        exact List.mem_cons_self _ _
      · rw [h, hm]
        exact List.mem_cons_of_mem _ (List.mem_cons_self _ _)
    · exact List.mem_cons_of_mem _ (List.mem_cons_of_mem _ h)

lemma self_le_foldl_max (x : ℝ) (xs : List ℝ) : x ≤ xs.foldl max x := by
  induction xs generalizing x with
  | nil => simp
  | cons a t ih => exact le_trans (le_max_left x a) (ih (max x a))

lemma le_foldl_max_of_mem (x y : ℝ) (xs : List ℝ) (hy : y ∈ xs) :
    y ≤ xs.foldl max x := by
  induction xs generalizing x with
  | nil => simp at hy
  | cons a t ih =>
    rcases List.mem_cons.mp hy with h | h
    · subst h
      exact le_trans (le_max_right x y) (self_le_foldl_max _ t)
    · exact ih (max x a) h

lemma foldl_min_mem (x : ℝ) (xs : List ℝ) : xs.foldl min x ∈ x :: xs := by
  induction xs generalizing x with
  | nil => simp
  | cons a t ih =>
    rw [List.foldl_cons]
    rcases List.mem_cons.mp (ih (min x a)) with h | h
    · rcases min_choice x a with hm | hm
      · rw [h, hm]
        exact List.mem_cons_self _ _
      · rw [h, hm]
        exact List.mem_cons_of_mem _ (List.mem_cons_self _ _)
    · exact List.mem_cons_of_mem _ (List.mem_cons_of_mem _ h)

lemma foldl_min_le_self (x : ℝ) (xs : List ℝ) : xs.foldl min x ≤ x := by
  induction xs generalizing x with
  | nil => simp
  | cons a t ih => exact le_trans (ih (min x a)) (min_le_left x a)

lemma foldl_min_le_of_mem (x y : ℝ) (xs : List ℝ) (hy : y ∈ xs) :
    xs.foldl min x ≤ y := by
  induction xs generalizing x with
  | nil => simp at hy
  | cons a t ih =>
    rcases List.mem_cons.mp hy with h | h
    · subst h
      exact le_trans (foldl_min_le_self _ t) (min_le_right x y)
    · exact ih (min x a) h

/-! ### Structure of the daily-return series -/

lemma dailyReturns_nil : dailyReturns [] = [] := rfl

lemma dailyReturns_singleton (a : ℝ) : dailyReturns [a] = [] := rfl

lemma dailyReturns_cons_cons (a b : ℝ) (t : List ℝ) :
    dailyReturns (a :: b :: t) = (b / a - 1) :: dailyReturns (b :: t) := rfl

lemma dailyReturns_length (p : List ℝ) :
    (dailyReturns p).length = p.length - 1 := by
  rw [dailyReturns, List.length_zipWith, List.length_tail]
  omega

/-- The code's `pct_change().dropna()` pipeline produces exactly the spec's
ReturnSeries. -/
lemma dailyReturns_eq_specReturnSeries (p : List ℝ) :
    dailyReturns p = specReturnSeries p := by
  induction p with
  | nil => rfl
  | cons a t ih =>
    cases t with
    | nil => rfl
    | cons b t' =>
      rw [dailyReturns_cons_cons, ih, specReturnSeries, specReturnSeries]
      simp only [List.length_cons, Nat.add_sub_cancel, List.range_succ_eq_map,
        List.map_cons, List.map_map]
      congr 1

/-! ### Unfolding the two branches of the probability model -/

lemma probProfit_call (c s : ℝ) (d : ℕ) (v : ℝ) :
    probProfit c s d v "call"
      = 1 - normCdf (Real.log (s / c) / (v * Real.sqrt ((d : ℝ) / 365))) := by
  simp [probProfit]

lemma probProfit_not_call (c s : ℝ) (d : ℕ) (v : ℝ) (ot : String) (h : ot ≠ "call") :
    probProfit c s d v ot
      = normCdf (Real.log (s / c) / (v * Real.sqrt ((d : ℝ) / 365))) := by
  simp only [probProfit]
  rw [if_neg h]

/-! ### Claims about the probability model -/

/-- Claim C1: for every `currentPrice > 0`, `strikePrice > 0`,
`daysToExpiry > 0` and `volatility > 0`, the probability-of-profit
computation returns `1 - Φ(log(strike/current) / (vol * sqrt(days/365)))`
when the option type is `call`, and `Φ(log(strike/current) /
(vol * sqrt(days/365)))` when it is `put`, where `Φ` is the standard normal
CDF. -/
theorem claim_C1_probability_formula (c s : ℝ) (d : ℕ) (v : ℝ)
    (hc : 0 < c) (hs : 0 < s) (hd : 0 < d) (hv : 0 < v) :
    probProfit c s d v "call"
        = 1 - normCdf (Real.log (s / c) / (v * Real.sqrt ((d : ℝ) / 365)))
      ∧ probProfit c s d v "put"
        = normCdf (Real.log (s / c) / (v * Real.sqrt ((d : ℝ) / 365))) :=
  ⟨probProfit_call c s d v, probProfit_not_call c s d v "put" (by decide)⟩

theorem claim_C1_probability_formula_witness :
    (0 : ℝ) < 150 ∧ (0 : ℝ) < 170 ∧ 0 < (30 : ℕ) ∧ (0 : ℝ) < 1 / 4
      ∧ (probProfit 150 170 30 (1 / 4) "call"
          = 1 - normCdf (Real.log (170 / 150)
              / ((1 / 4) * Real.sqrt (((30 : ℕ) : ℝ) / 365)))
        ∧ probProfit 150 170 30 (1 / 4) "put"
          = normCdf (Real.log (170 / 150)
              / ((1 / 4) * Real.sqrt (((30 : ℕ) : ℝ) / 365)))) :=
  ⟨by norm_num, by norm_num, by norm_num, by norm_num,
    claim_C1_probability_formula 150 170 30 (1 / 4) (by norm_num) (by norm_num)
      (by norm_num) (by norm_num)⟩

/-- Claim C5: for every valid input the returned probability of profit lies
in the closed interval `[0, 1]`. -/
theorem claim_C5_probability_in_unit_interval (c s : ℝ) (d : ℕ) (v : ℝ)
    (ot : String) (hc : 0 < c) (hs : 0 < s) (hd : 0 < d) (hv : 0 < v)
    (hot : ot = "call" ∨ ot = "put") :
    0 ≤ probProfit c s d v ot ∧ probProfit c s d v ot ≤ 1 := by
  rcases hot with h | h <;> subst h
  · rw [probProfit_call]
    exact ⟨sub_nonneg.mpr (normCdf_le_one _), sub_le_self 1 (normCdf_nonneg _)⟩
  · rw [probProfit_not_call c s d v "put" (by decide)]
    exact ⟨normCdf_nonneg _, normCdf_le_one _⟩

theorem claim_C5_probability_in_unit_interval_witness :
    ((0 : ℝ) < 150 ∧ (0 : ℝ) < 170 ∧ 0 < (30 : ℕ) ∧ (0 : ℝ) < 1 / 4
        ∧ (("call" : String) = "call" ∨ ("call" : String) = "put"))
      ∧ (0 ≤ probProfit 150 170 30 (1 / 4) "call"
        ∧ probProfit 150 170 30 (1 / 4) "call" ≤ 1) :=
  ⟨⟨by norm_num, by norm_num, by norm_num, by norm_num, Or.inl rfl⟩,
    claim_C5_probability_in_unit_interval 150 170 30 (1 / 4) "call" (by norm_num)
      (by norm_num) (by norm_num) (by norm_num) (Or.inl rfl)⟩

/-- Claim C6: holding current price, days to expiry and volatility fixed at
valid values, the probability of profit is non-increasing in the strike for a
call and non-decreasing in the strike for a put. -/
theorem claim_C6_monotone_in_strike (c : ℝ) (d : ℕ) (v : ℝ)
    (hc : 0 < c) (hd : 0 < d) (hv : 0 < v)
    (s1 s2 : ℝ) (hs1 : 0 < s1) (h12 : s1 ≤ s2) :
    probProfit c s2 d v "call" ≤ probProfit c s1 d v "call"
      ∧ probProfit c s1 d v "put" ≤ probProfit c s2 d v "put" := by
  have hd' : (0 : ℝ) < (d : ℝ) := by exact_mod_cast hd
  have hσ : 0 < v * Real.sqrt ((d : ℝ) / 365) := by
    apply mul_pos hv
    apply Real.sqrt_pos.mpr
    positivity
  have hlog : Real.log (s1 / c) ≤ Real.log (s2 / c) := by
    apply Real.log_le_log (div_pos hs1 hc)
    gcongr
  have hx : Real.log (s1 / c) / (v * Real.sqrt ((d : ℝ) / 365))
      ≤ Real.log (s2 / c) / (v * Real.sqrt ((d : ℝ) / 365)) := by
    gcongr
  have hΦ := normCdf_mono hx
  refine ⟨?_, ?_⟩
  · rw [probProfit_call, probProfit_call]
    exact sub_le_sub_left hΦ 1
  · rw [probProfit_not_call c s1 d v "put" (by decide),
      probProfit_not_call c s2 d v "put" (by decide)]
    exact hΦ

theorem claim_C6_monotone_in_strike_witness :
    ((0 : ℝ) < 100 ∧ 0 < (30 : ℕ) ∧ (0 : ℝ) < 1 / 4 ∧ (0 : ℝ) < 90
        ∧ (90 : ℝ) ≤ 110)
      ∧ (probProfit 100 110 30 (1 / 4) "call" ≤ probProfit 100 90 30 (1 / 4) "call"
        ∧ probProfit 100 90 30 (1 / 4) "put" ≤ probProfit 100 110 30 (1 / 4) "put") :=
  ⟨⟨by norm_num, by norm_num, by norm_num, by norm_num, by norm_num⟩,
    claim_C6_monotone_in_strike 100 30 (1 / 4) (by norm_num) (by norm_num)
      (by norm_num) 90 110 (by norm_num) (by norm_num)⟩

/-- Claim C7: an at-the-money call (`strikePrice = currentPrice`) with
positive volatility and days to expiry has probability of profit exactly
`1/2` in exact real arithmetic, since `log 1 = 0` and `Φ(0) = 1/2`. -/
theorem claim_C7_atm_call_probability_half (c : ℝ) (d : ℕ) (v : ℝ)
    (hc : 0 < c) (hd : 0 < d) (hv : 0 < v) :
    probProfit c c d v "call" = 1 / 2 := by
  rw [probProfit_call, div_self (ne_of_gt hc), Real.log_one, zero_div,
    normCdf_zero]
  norm_num

theorem claim_C7_atm_call_probability_half_witness :
    ((0 : ℝ) < 100 ∧ 0 < (30 : ℕ) ∧ (0 : ℝ) < 1 / 2)
      ∧ probProfit 100 100 30 (1 / 2) "call" = 1 / 2 :=
  ⟨⟨by norm_num, by norm_num, by norm_num⟩,
    claim_C7_atm_call_probability_half 100 30 (1 / 2) (by norm_num) (by norm_num)
      (by norm_num)⟩

/-- Claim C10: for every option-type string other than `"call"` — not only
`"put"` — the computation takes the `else` branch and returns the put
formula; no validation rejects an out-of-enum option type. -/
theorem claim_C10_non_call_takes_put_branch (c s : ℝ) (d : ℕ) (v : ℝ)
    (ot : String) (h : ot ≠ "call") :
    probProfit c s d v ot
      = normCdf (Real.log (s / c) / (v * Real.sqrt ((d : ℝ) / 365))) :=
  probProfit_not_call c s d v ot h

theorem claim_C10_non_call_takes_put_branch_witness :
    ("banana" : String) ≠ "call"
      ∧ probProfit 150 170 30 (1 / 4) "banana"
        = normCdf (Real.log (170 / 150)
            / ((1 / 4) * Real.sqrt (((30 : ℕ) : ℝ) / 365))) :=
  ⟨by decide,
    claim_C10_non_call_takes_put_branch 150 170 30 (1 / 4) "banana" (by decide)⟩

/-! ### Claim about the return-statistics computation -/

/-- Claim C3: for every price series with at least 2 points, the statistics
computation returns volatility equal to the sample standard deviation
(divisor `n-1`) of the daily-return series times `sqrt 252`, `avgDailyMove`
equal to the mean of the absolute returns, `maxDailyGain` the maximum daily
return and `maxDailyLoss` the minimum daily return, where
`return[i] = price[i]/price[i-1] - 1`. -/
theorem claim_C3_return_statistics (p : List ℝ) (h2 : 2 ≤ p.length) :
    dailyReturns p = specReturnSeries p
      ∧ (specReturnSeries p).length = p.length - 1
      ∧ volatility p
          = Real.sqrt (((specReturnSeries p).map
              (fun r => (r - (specReturnSeries p).sum
                / ((specReturnSeries p).length : ℝ)) ^ 2)).sum
            / (((specReturnSeries p).length : ℝ) - 1)) * Real.sqrt 252
      ∧ avgDailyMove p
          = ((specReturnSeries p).map (fun r => |r|)).sum
            / ((specReturnSeries p).length : ℝ)
      ∧ maxDailyGain p ∈ specReturnSeries p
      ∧ (∀ r ∈ specReturnSeries p, r ≤ maxDailyGain p)
      ∧ maxDailyLoss p ∈ specReturnSeries p
      ∧ (∀ r ∈ specReturnSeries p, maxDailyLoss p ≤ r) := by
  have hds := dailyReturns_eq_specReturnSeries p
  have hlen : (specReturnSeries p).length = p.length - 1 := by
    rw [← hds]
    exact dailyReturns_length p
  obtain ⟨r0, rs, hcons⟩ : ∃ r0 rs, specReturnSeries p = r0 :: rs := by
    cases h : specReturnSeries p with
    | nil =>
      rw [h] at hlen
      simp at hlen
      omega
    | cons a l => exact ⟨a, l, rfl⟩
  refine ⟨hds, hlen, ?_, ?_, ?_, ?_, ?_, ?_⟩
  · rw [volatility, hds]
    rfl
  · rw [avgDailyMove, hds]
    simp [seriesMean]
  · rw [maxDailyGain, hds, hcons]
    exact foldl_max_mem r0 rs
  · intro r hr
    rw [maxDailyGain, hds, hcons]
    rw [hcons] at hr
    rcases List.mem_cons.mp hr with h | h
    · rw [h]
      exact self_le_foldl_max _ _
    · exact le_foldl_max_of_mem _ _ _ h
  · rw [maxDailyLoss, hds, hcons]
    exact foldl_min_mem r0 rs
  · intro r hr
    rw [maxDailyLoss, hds, hcons]
    rw [hcons] at hr
    rcases List.mem_cons.mp hr with h | h
    · rw [h]
      exact foldl_min_le_self _ _
    · exact foldl_min_le_of_mem _ _ _ h

theorem claim_C3_return_statistics_witness :
    2 ≤ ([(100 : ℝ), 110]).length
      ∧ (dailyReturns [(100 : ℝ), 110] = specReturnSeries [(100 : ℝ), 110]
        ∧ (specReturnSeries [(100 : ℝ), 110]).length = ([(100 : ℝ), 110]).length - 1
        ∧ volatility [(100 : ℝ), 110]
            = Real.sqrt (((specReturnSeries [(100 : ℝ), 110]).map
                (fun r => (r - (specReturnSeries [(100 : ℝ), 110]).sum
                  / ((specReturnSeries [(100 : ℝ), 110]).length : ℝ)) ^ 2)).sum
              / (((specReturnSeries [(100 : ℝ), 110]).length : ℝ) - 1)) * Real.sqrt 252
        ∧ avgDailyMove [(100 : ℝ), 110]
            = ((specReturnSeries [(100 : ℝ), 110]).map (fun r => |r|)).sum
              / ((specReturnSeries [(100 : ℝ), 110]).length : ℝ)
        ∧ maxDailyGain [(100 : ℝ), 110] ∈ specReturnSeries [(100 : ℝ), 110]
        ∧ (∀ r ∈ specReturnSeries [(100 : ℝ), 110],
            r ≤ maxDailyGain [(100 : ℝ), 110])
        ∧ maxDailyLoss [(100 : ℝ), 110] ∈ specReturnSeries [(100 : ℝ), 110]
        ∧ (∀ r ∈ specReturnSeries [(100 : ℝ), 110],
            maxDailyLoss [(100 : ℝ), 110] ≤ r)) :=
  ⟨by simp, claim_C3_return_statistics [(100 : ℝ), 110] (by simp)⟩

/-! ### Claim about the orchestrator and the investment amount -/

/-- Claim C9: `investment_amount` is informational only — two runs of
`analyze_option` that differ only in the investment amount agree on every
field of the analysis record other than `investment_amount` itself. -/
theorem claim_C9_investment_amount_informational
    (fetched : Except PyError (List ℝ)) (t : String) (s : ℝ) (d : ℕ)
    (ot : String) (inv1 inv2 : ℝ) :
    Except.map (fun a : Analysis => (a.ticker, a.current_price, a.strike_price,
        a.days_to_expiry, a.volatility, a.avg_daily_move, a.max_daily_gain,
        a.max_daily_loss, a.prob_profit, a.option_type))
      (analyzeOption fetched t s d ot inv1)
    = Except.map (fun a : Analysis => (a.ticker, a.current_price, a.strike_price,
        a.days_to_expiry, a.volatility, a.avg_daily_move, a.max_daily_gain,
        a.max_daily_loss, a.prob_profit, a.option_type))
      (analyzeOption fetched t s d ot inv2) := by
  cases fetched with
  | error e => rfl
  | ok hist =>
    cases h : hist.getLast? with
    | none => simp [analyzeOption, h]
    | some cp =>
      simp only [analyzeOption, h]
      rfl

/-! ### The degenerate inputs of the error-handling claims -/

lemma dailyReturns_replicate (c : ℝ) (hc : c ≠ 0) (n : ℕ) :
    dailyReturns (List.replicate n c) = List.replicate (n - 1) 0 := by
  induction n with
  | zero => rfl
  | succ m ih =>
    cases m with
    | zero => rfl
    | succ k =>
      have hk : dailyReturns (List.replicate (k + 1) c) = List.replicate k 0 := by
        simpa using ih
      rw [Nat.add_sub_cancel, List.replicate_succ, List.replicate_succ,
        dailyReturns_cons_cons, ← List.replicate_succ, hk, div_self hc,
        List.replicate_succ]
      norm_num

lemma seriesStd_replicate_zero (n : ℕ) :
    seriesStd (List.replicate n (0 : ℝ)) = 0 := by
  simp [seriesStd, seriesMean, List.sum_replicate, List.map_replicate]

/-- Claim C2 evaluated on the code (code bug): on the spec's own scenario —
21 identical closes at 100, strike 100, 30 days, call — the code raises
nothing.  The realized volatility is 0, `analyze_option` returns a normal
result record instead of failing with `InvalidParameterError`, and the
probability computation at volatility 0 silently yields a value: in the
source, `np.log(1)/0.0 = nan` and `norm.cdf(nan) = nan`; in the exact-real
embedding (where division by zero is total and yields 0) it is exactly the
`0.5` that the spec forbids returning silently.  Either way, no error. -/
theorem claim_C2_no_invalid_parameter_guard :
    volatility (List.replicate 21 (100 : ℝ)) = 0
      ∧ (analyzeOption (.ok (List.replicate 21 (100 : ℝ)))
          "AAPL" 100 30 "call" 1000).isOk = true
      ∧ probProfit 100 100 30 0 "call" = 1 / 2 := by
  refine ⟨?_, rfl, ?_⟩
  · rw [volatility, dailyReturns_replicate 100 (by norm_num) 21,
      seriesStd_replicate_zero, zero_mul]
  · rw [probProfit_call, div_self (by norm_num : (100 : ℝ) ≠ 0), Real.log_one,
      zero_div, normCdf_zero]
    norm_num

/-- Claim C4 evaluated on the code (code bug): with a single-point price
series the code does not fail at all — `iloc[-1]` succeeds, the empty return
series produces junk (`NaN` in pandas) statistics, and a full record is
returned; with an empty series the code fails, but with the pandas
`IndexError` from `iloc[-1]`, not with `InsufficientDataError`. -/
theorem claim_C4_no_insufficient_data_guard :
    (analyzeOption (.ok [(100 : ℝ)]) "AAPL" 170 30 "call" 1000).isOk = true
      ∧ analyzeOption (.ok ([] : List ℝ)) "AAPL" 170 30 "call" 1000
          = .error PyError.indexError
      ∧ PyError.indexError ≠ PyError.insufficientDataError :=
  ⟨rfl, rfl, by decide⟩

/-- Claim C8 evaluated on the code (code bug): when the market-data
collaborator fails, `analyze_option` does fail before computing anything —
but by propagating the collaborator's own exception unchanged (there is no
`try`/`except` in the source), not by raising `DataUnavailableError`; and an
unknown ticker, for which yfinance returns an empty frame rather than
raising, surfaces as the `IndexError` of `iloc[-1]`. -/
theorem claim_C8_collaborator_failure_propagates :
    (∀ (e : PyError) (t : String) (s : ℝ) (d : ℕ) (ot : String) (inv : ℝ),
        analyzeOption (.error e) t s d ot inv = .error e)
      ∧ analyzeOption (.error PyError.collaboratorError) "ZZZZ" 170 30 "call" 1000
          ≠ .error PyError.dataUnavailableError
      ∧ analyzeOption (.ok ([] : List ℝ)) "ZZZZ" 170 30 "call" 1000
          = .error PyError.indexError := by
  have hprop : ∀ (e : PyError) (t : String) (s : ℝ) (d : ℕ) (ot : String)
      (inv : ℝ), analyzeOption (.error e) t s d ot inv = .error e :=
    fun _ _ _ _ _ _ => rfl
  refine ⟨hprop, ?_, rfl⟩
  rw [hprop]
  intro h
  exact PyError.noConfusion (Except.error.inj h)

end OptionsAnalyzer
